import Mathlib

/-!
Verification development for the truck-parking CV training pipeline.

The Lean definitions below are shallow embeddings of the Python sources
cv_training_pipeline.py, label_training_batch.py, cv_parking_rag.py and
cv_training_comparison.py.  Modelling conventions:

* Python dict fields that may be absent or hold None are modelled as Option;
  a none value stands for both by default, and where the distinction matters
  (detailed_notes inside a sample dict, where the key is always present but
  its value may be None) the comment on the definition says so.
* A Python exception escaping the modelled code is Except.error ().
* Numbers taken from JSON are modelled as Int; Python float division and
  the Python round builtin are modelled exactly over the rationals, so a
  value such as sum(xs)/len(xs) is exact rather than an IEEE-754 float.
* Python dicts used as insertion-ordered mappings are modelled as
  association lists in insertion order.
-/

/-- Value of the Python max builtin on a list of ints; the 0 for the empty
list is never reached because every caller guards with a nonempty test. -/
def pyMax : List Int → Int
  | [] => 0
  | h :: t => t.foldl max h

/-- Value of the Python min builtin on a list of ints; same guard as pyMax. -/
def pyMin : List Int → Int
  | [] => 0
  | h :: t => t.foldl min h

/-- Exact value of the Python float division n/d for an int n and length d. -/
def pyDiv (n : Int) (d : Nat) : ℚ := Rat.divInt n d

/-- The Python round builtin on an exact rational: round half to even. -/
def pyRound (q : ℚ) : Int :=
  let d : Int := (q.den : Int)
  let f : Int := q.num / d
  let r : Int := q.num % d
  if 2 * r < d then f
  else if d < 2 * r then f + 1
  else if f % 2 = 0 then f else f + 1

/-- ASCII case lowering, the fragment of the Python str.lower method that the
note texts of this repository use. -/
def charLower (c : Char) : Char :=
  if ('A' ≤ c ∧ c ≤ 'Z') then Char.ofNat (c.toNat + 32) else c

/-- String lowering built from charLower. -/
def pyLower (s : String) : String := String.mk (s.toList.map charLower)

/-- Whether the first list is an initial segment of the second. -/
def listStartsWith : List Char → List Char → Bool
  | [], _ => true
  | _ :: _, [] => false
  | a :: as, b :: bs => a = b && listStartsWith as bs

/-- Whether needle occurs as a contiguous run inside the second list. -/
def containsSub (needle : List Char) : List Char → Bool
  | [] => needle.isEmpty
  | c :: t => listStartsWith needle (c :: t) || containsSub needle t

/-- The Python substring test: needle in hay. -/
def pyContains (hay needle : String) : Bool := containsSub needle.toList hay.toList

/-- The snow test of the detection-tip rule: "snow" in all_notes.lower(). -/
def snowIn (all_notes : String) : Bool := pyContains (pyLower all_notes) "snow"

/-- The Python expression " ".join(parts). -/
def pyJoinSpace : List String → String
  | [] => ""
  | p :: rest => rest.foldl (fun acc q => acc ++ " " ++ q) p

/-- Sequences a list of optional values; none marks a Python None among them. -/
def allSome {α : Type} : List (Option α) → Option (List α)
  | [] => some []
  | none :: _ => none
  | some a :: r => (allSome r).map (a :: ·)

/-- Lookup in an insertion-ordered association list (Python dict access). -/
def alookup {β : Type} (c : String) : List (String × β) → Option β
  | [] => none
  | (k, b) :: r => if k = c then some b else alookup c r

/-- Clamp an int index for Python slicing over a sequence of the given length. -/
def pyClampIdx (len i : Int) : Int :=
  if i < 0 then (if len + i < 0 then 0 else len + i)
  else (if len < i then len else i)

/-- The Python list slice l[a:] for an int bound a. -/
def pyTailFrom {α : Type} (l : List α) (a : Int) : List α :=
  l.drop (pyClampIdx l.length a).toNat

/-- The Python string slice s[a:b] for int bounds. -/
def pySlice (s : String) (a b : Int) : String :=
  let cs := s.toList
  let a2 := (pyClampIdx cs.length a).toNat
  let b2 := (pyClampIdx cs.length b).toNat
  String.mk ((cs.drop a2).take (b2 - a2))

/-- The Python string slice s[:n] for a natural bound. -/
def pyTake (s : String) (n : Nat) : String := String.mk (s.toList.take n)

/-- Index of the first occurrence of a character, if any. -/
def findIdx (c : Char) : List Char → Option Nat
  | [] => none
  | d :: r => if d = c then some 0 else (findIdx c r).map (· + 1)

/-- Index of the last occurrence of a character, if any. -/
def rfindIdx (c : Char) : List Char → Option Nat
  | [] => none
  | d :: r =>
      match rfindIdx c r with
      | some i => some (i + 1)
      | none => if d = c then some 0 else none

/-- The Python str.find for a single character: -1 when absent. -/
def pyFind (s : String) (c : Char) : Int :=
  match findIdx c s.toList with
  | none => -1
  | some i => i

/-- The Python str.rfind for a single character: -1 when absent. -/
def pyRfind (s : String) (c : Char) : Int :=
  match rfindIdx c s.toList with
  | none => -1
  | some i => i

/-- One label record per analyzed image.  Fields the pipeline reads; an
absent dict key or a JSON null is none. -/
structure Label where
  camera_id : Option String := none
  image_path : String := ""
  truck_count : Option Int := none
  car_count : Option Int := none
  occupancy_percent : Option Int := none
  weather : Option String := none
  time_of_day : Option String := none
  confidence : Option String := none
  detailed_notes : Option String := none
  labeled_at : Option String := none
  labeling_time_sec : Option ℚ := none
  input_tokens : Option Int := none
  output_tokens : Option Int := none
deriving DecidableEq

/-- Per-label summary stored in a site group.  Every key of the Python dict
is always present; a none value models Python None stored under the key. -/
structure Sample where
  truck_count : Option Int := none
  occupancy_percent : Option Int := none
  weather : Option String := none
  time_of_day : Option String := none
  detailed_notes : Option String := none
deriving DecidableEq

/-- Per-site statistics record.  min_truck_count is Option because only
label_training_batch.compute_site_stats writes that key; none models the
key being absent from the dict built by
TrainingPipeline.compute_site_statistics. -/
structure SiteStats where
  samples : List Sample := []
  name : String := ""
  avg_truck_count : ℚ := 0
  max_truck_count : Int := 0
  min_truck_count : Option Int := none
  avg_occupancy : ℚ := 0
  sample_count : Nat := 0
  detection_tips : String := ""
deriving DecidableEq

/-- The persisted labels.json document: images plus the derived sites map. -/
structure TrainingStore where
  images : List Label := []
  sites : List (String × SiteStats) := []
deriving DecidableEq

/-- Camera id after the Python truthiness gate (if not camera_id: continue),
which skips both a missing id and an empty string. -/
def truthyId (label : Label) : Option String :=
  match label.camera_id with
  | none => none
  | some c => if c = "" then none else some c

/-- The per-label summary dict appended to a site group
(cv_training_pipeline.py lines 237 to 243). -/
def sampleOf (label : Label) : Sample :=
  { truck_count := label.truck_count
    occupancy_percent := label.occupancy_percent
    weather := label.weather
    time_of_day := label.time_of_day
    detailed_notes := label.detailed_notes }

/-- Append a sample to the group of the given camera, creating the group at
the end on first sight, as dict insertion order does. -/
def addToGroup : List (String × List Sample) → String → Sample → List (String × List Sample)
  | [], c, s => [(c, [s])]
  | (k, ss) :: rest, c, s =>
      if k = c then (k, ss ++ [s]) :: rest else (k, ss) :: addToGroup rest c s

/-- One iteration of the grouping loop of compute_site_statistics. -/
def groupStep (gs : List (String × List Sample)) (label : Label) : List (String × List Sample) :=
  match truthyId label with
  | none => gs
  | some c => addToGroup gs c (sampleOf label)

/-- First loop of compute_site_statistics and compute_site_stats: group all
labels by camera_id, preserving insertion order. -/
def groupSamples (labels : List Label) : List (String × List Sample) :=
  labels.foldl groupStep []

/-- The expression " ".join([s.get("detailed_notes", "") for s in samples]).
Every sample dict carries the detailed_notes key, so the .get default never
fires; a stored None reaches the join and raises TypeError. -/
def joinNotes (samples : List Sample) : Except Unit String :=
  match allSome (samples.map Sample.detailed_notes) with
  | none => Except.error ()
  | some notes => Except.ok (pyJoinSpace notes)

/-- Detection tip selected when the concatenated notes mention snow. -/
def winterTip : String := "Winter conditions common. Look for truck shapes despite snow."

/-- Detection tip selected otherwise. -/
def standardTip : String := "Standard detection. Count trailer rectangles."

/-- Aggregate pass of TrainingPipeline.compute_site_statistics
(cv_training_pipeline.py lines 246 to 262).  No min_truck_count key is
written by this version. -/
def site_aggregates_pipeline (cid : String) (samples : List Sample) : Except Unit SiteStats :=
  let truck_counts := samples.filterMap Sample.truck_count
  let occupancies := samples.filterMap Sample.occupancy_percent
  match joinNotes samples with
  | Except.error e => Except.error e
  | Except.ok all_notes =>
      Except.ok
        { samples := samples
          name := cid
          avg_truck_count :=
            if truck_counts = [] then 0 else pyDiv truck_counts.sum truck_counts.length
          max_truck_count := if truck_counts = [] then 0 else pyMax truck_counts
          min_truck_count := none
          avg_occupancy :=
            if occupancies = [] then 0 else pyDiv occupancies.sum occupancies.length
          sample_count := samples.length
          detection_tips := if snowIn all_notes then winterTip else standardTip }

/-- Aggregate pass of label_training_batch.compute_site_stats
(label_training_batch.py lines 137 to 154).  Identical to the pipeline
version except that it also writes min_truck_count. -/
def site_aggregates_batch (cid : String) (samples : List Sample) : Except Unit SiteStats :=
  let truck_counts := samples.filterMap Sample.truck_count
  let occupancies := samples.filterMap Sample.occupancy_percent
  match joinNotes samples with
  | Except.error e => Except.error e
  | Except.ok all_notes =>
      Except.ok
        { samples := samples
          name := cid
          avg_truck_count :=
            if truck_counts = [] then 0 else pyDiv truck_counts.sum truck_counts.length
          max_truck_count := if truck_counts = [] then 0 else pyMax truck_counts
          min_truck_count := some (if truck_counts = [] then 0 else pyMin truck_counts)
          avg_occupancy :=
            if occupancies = [] then 0 else pyDiv occupancies.sum occupancies.length
          sample_count := samples.length
          detection_tips := if snowIn all_notes then winterTip else standardTip }

/-- The aggregate for-loop over the grouped sites, in insertion order; the
first group whose notes hold a None raises and aborts the whole computation. -/
def aggregateStats (f : String → List Sample → Except Unit SiteStats) :
    List (String × List Sample) → Except Unit (List (String × SiteStats))
  | [] => Except.ok []
  | (c, ss) :: gs =>
      match f c ss with
      | Except.error e => Except.error e
      | Except.ok st =>
          match aggregateStats f gs with
          | Except.error e => Except.error e
          | Except.ok rest => Except.ok ((c, st) :: rest)

/-- TrainingPipeline.compute_site_statistics (cv_training_pipeline.py
lines 221 to 271), as a function of the stored label list. -/
def compute_site_statistics (labels : List Label) : Except Unit (List (String × SiteStats)) :=
  aggregateStats site_aggregates_pipeline (groupSamples labels)

/-- label_training_batch.compute_site_stats (label_training_batch.py
lines 116 to 156). -/
def compute_site_stats (labels : List Label) : Except Unit (List (String × SiteStats)) :=
  aggregateStats site_aggregates_batch (groupSamples labels)

/-- compute_site_statistics also replaces labels["sites"] with the freshly
computed mapping before saving (line 264). -/
def compute_site_statistics_update (store : TrainingStore) : Except Unit TrainingStore :=
  (compute_site_statistics store.images).map
    (fun s => { images := store.images, sites := s })

/-- Store append performed by TrainingPipeline.label_image_with_opus
(cv_training_pipeline.py line 210): an unconditional append, with no
duplicate-path check. -/
def label_image_record (images : List Label) (label : Label) : List Label :=
  images ++ [label]

/-- Per-image record step of label_training_batch.main (lines 171 to 175 and
193 to 195): an image whose path is already stored is filtered out before
labeling, so a duplicate insert never happens there. -/
def recordLabel (images : List Label) (label : Label) : List Label × Bool :=
  if label.image_path ∈ images.map Label.image_path then (images, false)
  else (images ++ [label], true)

/-- Folding a whole sequence of record operations over an empty store. -/
def recordSeq (ls : List Label) : List Label :=
  ls.foldl (fun im l => (recordLabel im l).1) []

/-- The lookup chain sites -> camera -> samples with dict defaults
(cv_training_pipeline.py lines 276 to 277). -/
def siteSamples (store : TrainingStore) (camera_id : String) : List Sample :=
  ((alookup camera_id store.sites).map SiteStats.samples).getD []

/-- TrainingPipeline.get_similar_examples (lines 273 to 280):
samples[-n:] if samples else []. -/
def get_similar_examples (store : TrainingStore) (camera_id : String) (n : Int) : List Sample :=
  let samples := siteSamples store camera_id
  if samples = [] then [] else pyTailFrom samples (-n)

/-- A Python value that is either a string or an int, as stored under
avg_capacity by get_site_knowledge. -/
inductive StrOrNum where
  | str (s : String)
  | num (n : Int)
deriving DecidableEq

/-- The dict returned by TrainingPipeline.get_site_knowledge. -/
structure SiteKnowledge where
  name : String
  avg_capacity : StrOrNum
  avg_occupancy : Int
  detection_tips : String
  sample_count : Nat
deriving DecidableEq

/-- TrainingPipeline.get_site_knowledge (cv_training_pipeline.py lines 282
to 293).  Every .get default of the source is reproduced: for an unseen
camera the site dict is empty and every field falls back; note that the
name field falls back to the camera id itself and avg_capacity falls back
to the string Unknown. -/
def get_site_knowledge (store : TrainingStore) (camera_id : String) : SiteKnowledge :=
  match alookup camera_id store.sites with
  | none =>
      { name := camera_id
        avg_capacity := StrOrNum.str "Unknown"
        avg_occupancy := pyRound 0
        detection_tips := "Count semi-truck trailers"
        sample_count := 0 }
  | some site_data =>
      { name := site_data.name
        avg_capacity := StrOrNum.num site_data.max_truck_count
        avg_occupancy := pyRound site_data.avg_occupancy
        detection_tips := site_data.detection_tips
        sample_count := site_data.sample_count }

/-- Rendering of a possibly-None int inside an f-string: Python prints None. -/
def showOptInt : Option Int → String
  | none => "None"
  | some k => toString k

/-- Rendering of the avg_capacity value inside an f-string. -/
def showStrOrNum : StrOrNum → String
  | StrOrNum.str s => s
  | StrOrNum.num n => toString n

/-- One example block of get_haiku_production_prompt (lines 95 to 101), with
the notes text already sliced. -/
def exampleBlock (i : Nat) (ex : Sample) (notes : String) : String :=
  "\nExample " ++ toString i ++ " (similar conditions):\n- Truck count: " ++
    showOptInt ex.truck_count ++ "\n- Occupancy: " ++ showOptInt ex.occupancy_percent ++
    "%\n- Notes: " ++ notes ++ "\n"

/-- Formatting of one retrieved example.  The notes key is always present in
a sample dict, so ex.get returns the stored value; slicing a stored None
raises TypeError, modelled as an error. -/
def formatExample (i : Nat) (ex : Sample) : Except Unit String :=
  match ex.detailed_notes with
  | none => Except.error ()
  | some nd => Except.ok (exampleBlock i ex (pyTake nd 100))

/-- The examples_text accumulation loop over enumerate(similar_examples[:3], 1). -/
def examplesTextAux : List (Nat × Sample) → Except Unit String
  | [] => Except.ok ""
  | (i, ex) :: rest =>
      match formatExample i ex with
      | Except.error e => Except.error e
      | Except.ok b =>
          match examplesTextAux rest with
          | Except.error e => Except.error e
          | Except.ok bs => Except.ok (b ++ bs)

/-- The examples_text value of get_haiku_production_prompt (lines 94 to 101). -/
def examplesText (similar_examples : List Sample) : Except Unit String :=
  examplesTextAux (List.enumFrom 1 (similar_examples.take 3))

/-- get_haiku_production_prompt (cv_training_pipeline.py lines 90 to 123). -/
def get_haiku_production_prompt (site_knowledge : SiteKnowledge)
    (similar_examples : List Sample) : Except Unit String :=
  match examplesText similar_examples with
  | Except.error e => Except.error e
  | Except.ok examples_text =>
      Except.ok
        ("Analyze this truck parking camera image.\n\nSITE INFO (from training data):\n- Location: " ++
         site_knowledge.name ++ "\n- Typical capacity: " ++
         showStrOrNum site_knowledge.avg_capacity ++ " trucks\n- Average occupancy: " ++
         toString site_knowledge.avg_occupancy ++ "%\n- Detection tips: " ++
         site_knowledge.detection_tips ++ "\n\nREFERENCE EXAMPLES FROM THIS CAMERA:\n" ++
         examples_text ++
         "\n\nCOUNT TRUCKS CAREFULLY:\n- Semi-trucks (trailers) only, not cars\n- If similar to examples above, expect similar counts\n\nReturn JSON:\n\x7b\n  \"truck_count\": <int>,\n  \"occupancy_percent\": <int>,\n  \"confidence\": \"<high/medium/low>\"\n\x7d")

/-- Structured value produced by json.loads on the fragments this pipeline
parses. -/
inductive Json where
  | null
  | bool (b : Bool)
  | num (q : ℚ)
  | str (s : String)
  | arr (xs : List Json)
  | obj (fields : List (String × Json))

/-- Skip JSON whitespace. -/
def skipWs : List Char → List Char
  | [] => []
  | c :: r => if c = ' ' ∨ c = '\t' ∨ c = '\n' ∨ c = '\r' then skipWs r else c :: r

/-- Value of a digit run. -/
def digitsVal (ds : List Char) : Nat :=
  ds.foldl (fun a c => a * 10 + (c.toNat - 48)) 0

/-- Value of a hex digit, if any. -/
def hexVal (c : Char) : Option Nat :=
  if '0' ≤ c ∧ c ≤ '9' then some (c.toNat - 48)
  else if 'a' ≤ c ∧ c ≤ 'f' then some (c.toNat - 87)
  else if 'A' ≤ c ∧ c ≤ 'F' then some (c.toNat - 55)
  else none

/-- JSON short string escapes. -/
def escMap : Char → Option Char
  | '"' => some '"'
  | '\\' => some '\\'
  | '/' => some '/'
  | 'b' => some (Char.ofNat 8)
  | 'f' => some (Char.ofNat 12)
  | 'n' => some '\n'
  | 'r' => some '\r'
  | 't' => some '\t'
  | _ => none

/-- Parse the body of a JSON string after the opening quote; returns the
decoded characters and the remainder after the closing quote. -/
def parseStringBody : List Char → Option (List Char × List Char)
  | [] => none
  | '"' :: r => some ([], r)
  | '\\' :: r =>
      (match r with
       | 'u' :: h1 :: h2 :: h3 :: h4 :: r2 =>
           (match hexVal h1, hexVal h2, hexVal h3, hexVal h4 with
            | some a, some b, some c, some d =>
                (parseStringBody r2).map
                  (fun p => (Char.ofNat (((a * 16 + b) * 16 + c) * 16 + d) :: p.1, p.2))
            | _, _, _, _ => none)
       | e :: r2 =>
           (match escMap e with
            | none => none
            | some ec => (parseStringBody r2).map (fun p => (ec :: p.1, p.2)))
       | [] => none)
  | c :: r =>
      if c.toNat < 32 then none
      else (parseStringBody r).map (fun p => (c :: p.1, p.2))

/-- Match a literal keyword tail. -/
def dropExact : List Char → List Char → Option (List Char)
  | [], input => some input
  | l :: ls, c :: r => if c = l then dropExact ls r else none
  | _ :: _, [] => none

/-- Digits after a decimal point: empty and no dot, or nonempty after a dot. -/
def parseFrac : List Char → Option (List Char × List Char)
  | '.' :: r =>
      let p := r.span Char.isDigit
      if p.1.isEmpty then none else some (p.1, p.2)
  | r => some ([], r)

/-- Signed digits of an exponent part after the e marker. -/
def parseExpTail (r : List Char) : Option (Int × List Char) :=
  let s : Int × List Char :=
    match r with
    | '+' :: r2 => (1, r2)
    | '-' :: r2 => (-1, r2)
    | _ => (1, r)
  let p := s.2.span Char.isDigit
  if p.1.isEmpty then none else some (s.1 * (digitsVal p.1 : Int), p.2)

/-- Optional exponent part. -/
def parseExp : List Char → Option (Int × List Char)
  | 'e' :: r => parseExpTail r
  | 'E' :: r => parseExpTail r
  | r => some (0, r)

/-- JSON number as an exact rational.  Slightly laxer than strict JSON in
accepting leading zeros; the fragments this pipeline parses never use them. -/
def parseNumber (input : List Char) : Option (ℚ × List Char) :=
  let sgn : Int × List Char :=
    match input with
    | '-' :: r => (-1, r)
    | _ => (1, input)
  let p1 := sgn.2.span Char.isDigit
  if p1.1.isEmpty then none
  else
    match parseFrac p1.2 with
    | none => none
    | some (fds, r2) =>
        match parseExp r2 with
        | none => none
        | some (e10, r3) =>
            let m : Int := sgn.1 * ((digitsVal p1.1) * 10 ^ fds.length + digitsVal fds)
            let e : Int := e10 - (fds.length : Int)
            let q : ℚ :=
              if 0 ≤ e then Rat.divInt (m * 10 ^ e.toNat) 1
              else Rat.divInt m (10 ^ (-e).toNat)
            some (q, r3)

mutual

/-- Fueled recursive-descent JSON value. -/
def parseValue : Nat → List Char → Option (Json × List Char)
  | 0, _ => none
  | fuel + 1, input =>
      match skipWs input with
      | [] => none
      | '\x7b' :: r =>
          (match skipWs r with
           | '\x7d' :: r2 => some (Json.obj [], r2)
           | r2 => (parseMembers fuel r2).map (fun p => (Json.obj p.1, p.2)))
      | '[' :: r =>
          (match skipWs r with
           | ']' :: r2 => some (Json.arr [], r2)
           | r2 => (parseItems fuel r2).map (fun p => (Json.arr p.1, p.2)))
      | '"' :: r => (parseStringBody r).map (fun p => (Json.str (String.mk p.1), p.2))
      | 't' :: r => (dropExact ['r', 'u', 'e'] r).map (fun r2 => (Json.bool true, r2))
      | 'f' :: r => (dropExact ['a', 'l', 's', 'e'] r).map (fun r2 => (Json.bool false, r2))
      | 'n' :: r => (dropExact ['u', 'l', 'l'] r).map (fun r2 => (Json.null, r2))
      | input2 => (parseNumber input2).map (fun p => (Json.num p.1, p.2))

/-- Fueled object member list, after the opening brace of a nonempty object. -/
def parseMembers : Nat → List Char → Option (List (String × Json) × List Char)
  | 0, _ => none
  | fuel + 1, input =>
      match skipWs input with
      | '"' :: r =>
          (match parseStringBody r with
           | none => none
           | some (key, r2) =>
               match skipWs r2 with
               | ':' :: r3 =>
                   (match parseValue fuel r3 with
                    | none => none
                    | some (v, r4) =>
                        match skipWs r4 with
                        | ',' :: r5 =>
                            (parseMembers fuel r5).map
                              (fun p => ((String.mk key, v) :: p.1, p.2))
                        | '\x7d' :: r5 => some ([(String.mk key, v)], r5)
                        | _ => none)
               | _ => none)
      | _ => none

/-- Fueled array item list, after the opening bracket of a nonempty array. -/
def parseItems : Nat → List Char → Option (List Json × List Char)
  | 0, _ => none
  | fuel + 1, input =>
      match parseValue fuel input with
      | none => none
      | some (v, r) =>
          match skipWs r with
          | ',' :: r2 => (parseItems fuel r2).map (fun p => (v :: p.1, p.2))
          | ']' :: r2 => some ([v], r2)
          | _ => none

end

/-- The json.loads boundary: the whole input must be one JSON value. -/
def jsonParse (s : String) : Option Json :=
  let cs := s.toList
  match parseValue (cs.length + 1) cs with
  | none => none
  | some (j, rest) => if skipWs rest = [] then some j else none

/-- Result of the response-parsing block of label_image_with_opus: either
the parsed label dict or the raw dict with its parse_error flag. -/
inductive ExtractResult where
  | parsed (label : Json)
  | raw (raw_response : String) (parse_error : Bool)

/-- The slice text[text.find(open):text.rfind(close)+1] both extractors take. -/
def extractCandidate (text : String) : String :=
  pySlice text (pyFind text '\x7b') (pyRfind text '\x7d' + 1)

/-- Response parsing of label_image_with_opus (cv_training_pipeline.py lines
193 to 199): the try block slices and parses; any exception yields the raw
dict flagged with parse_error set. -/
def extract_label (text : String) : ExtractResult :=
  match jsonParse (extractCandidate text) with
  | some j => ExtractResult.parsed j
  | none => ExtractResult.raw text true

/-- Result of the response-parsing block of test_haiku_with_rag: the raw
dict there carries no flag beyond its own shape. -/
inductive RagResult where
  | parsed (result : Json)
  | raw (raw_response : String)

/-- Response parsing of test_haiku_with_rag (cv_parking_rag.py lines 181 to
190): an explicit brace check guards the slice, and a parse failure is
caught and degraded to the raw dict. -/
def extract_rag (text : String) : RagResult :=
  let start := pyFind text '\x7b'
  let e := pyRfind text '\x7d' + 1
  if 0 ≤ start ∧ start < e then
    match jsonParse (pySlice text start e) with
    | some j => RagResult.parsed j
    | none => RagResult.raw text
  else RagResult.raw text

/-- Concrete labels of the end-to-end scenario of the spec: camera X with
truck counts 3, 5 and 7 plus one label whose truck_count is missing. -/
def scenarioLabels : List Label :=
  [{ camera_id := some "X", image_path := "x1.png", truck_count := some 3,
     occupancy_percent := some 40, detailed_notes := some "clear day" },
   { camera_id := some "X", image_path := "x2.png", truck_count := some 5,
     occupancy_percent := some 60, detailed_notes := some "cloudy" },
   { camera_id := some "X", image_path := "x3.png", truck_count := some 7,
     detailed_notes := some "busy lot" },
   { camera_id := some "X", image_path := "x4.png", detailed_notes := some "image unclear" }]

/-- The site record compute_site_stats builds for the scenario above. -/
def scenarioStat : SiteStats :=
  { samples :=
      [{ truck_count := some 3, occupancy_percent := some 40, detailed_notes := some "clear day" },
       { truck_count := some 5, occupancy_percent := some 60, detailed_notes := some "cloudy" },
       { truck_count := some 7, detailed_notes := some "busy lot" },
       { detailed_notes := some "image unclear" }],
    name := "X",
    avg_truck_count := 5,
    max_truck_count := 7,
    min_truck_count := some 3,
    avg_occupancy := 50,
    sample_count := 4,
    detection_tips := standardTip }

/-- The full sites mapping compute_site_stats returns for the scenario. -/
def scenarioResult : List (String × SiteStats) := [("X", scenarioStat)]

/-- Specification vocabulary: the samples of all labels of one camera, in
label order.  Used only to state grouping correctness against the source. -/
def camOf (labels : List Label) (c : String) : List Sample :=
  (labels.filter (fun l => decide (truthyId l = some c))).map sampleOf

/-- Specification vocabulary: how one grouping step extends a lookup result. -/
def combineG : Option (List Sample) → List Sample → Option (List Sample)
  | none, [] => none
  | none, s :: l => some (s :: l)
  | some ss, l => some (ss ++ l)

lemma le_foldl_max (t : List Int) : ∀ a b : Int, a ≤ b → a ≤ t.foldl max b := by
  induction t with
  | nil => intro a b h; simpa using h
  | cons c t ih =>
      intro a b h
      exact ih a (max b c) (le_trans h (le_max_left b c))

lemma mem_le_foldl_max (t : List Int) : ∀ b x, x ∈ t → x ≤ t.foldl max b := by
  induction t with
  | nil => intro b x h; cases h
  | cons c t ih =>
      intro b x h
      rcases List.mem_cons.mp h with h1 | h2
      · subst h1
        exact le_foldl_max t x (max b x) (le_max_right b x)
      · exact ih (max b c) x h2

lemma foldl_max_mem (t : List Int) : ∀ b, t.foldl max b = b ∨ t.foldl max b ∈ t := by
  induction t with
  | nil => intro b; left; rfl
  | cons c t ih =>
      intro b
      rcases ih (max b c) with h | h
      · rcases max_choice b c with h2 | h2
        · left
          show t.foldl max (max b c) = b
          rw [h, h2]
        · right
          show t.foldl max (max b c) ∈ c :: t
          rw [h, h2]
          exact List.mem_cons_self c t
      · right
        exact List.mem_cons_of_mem c h

lemma pyMax_mem (l : List Int) (h : l ≠ []) : pyMax l ∈ l := by
  cases l with
  | nil => exact absurd rfl h
  | cons a t =>
      rcases foldl_max_mem t a with h1 | h1
      · rw [pyMax, h1]; exact List.mem_cons_self a t
      · rw [pyMax]; exact List.mem_cons_of_mem a h1

lemma pyMax_ub (l : List Int) : ∀ x ∈ l, x ≤ pyMax l := by
  cases l with
  | nil => intro x hx; cases hx
  | cons a t =>
      intro x hx
      rcases List.mem_cons.mp hx with h1 | h2
      · subst h1; exact le_foldl_max t x x le_rfl
      · exact mem_le_foldl_max t a x h2

lemma foldl_min_le (t : List Int) : ∀ a b : Int, b ≤ a → t.foldl min b ≤ a := by
  induction t with
  | nil => intro a b h; simpa using h
  | cons c t ih =>
      intro a b h
      exact ih a (min b c) (le_trans (min_le_left b c) h)

lemma foldl_min_le_mem (t : List Int) : ∀ b x, x ∈ t → t.foldl min b ≤ x := by
  induction t with
  | nil => intro b x h; cases h
  | cons c t ih =>
      intro b x h
      rcases List.mem_cons.mp h with h1 | h2
      · subst h1
        exact foldl_min_le t x (min b x) (min_le_right b x)
      · exact ih (min b c) x h2

lemma foldl_min_mem (t : List Int) : ∀ b, t.foldl min b = b ∨ t.foldl min b ∈ t := by
  induction t with
  | nil => intro b; left; rfl
  | cons c t ih =>
      intro b
      rcases ih (min b c) with h | h
      · rcases min_choice b c with h2 | h2
        · left
          show t.foldl min (min b c) = b
          rw [h, h2]
        · right
          show t.foldl min (min b c) ∈ c :: t
          rw [h, h2]
          exact List.mem_cons_self c t
      · right
        exact List.mem_cons_of_mem c h

lemma pyMin_mem (l : List Int) (h : l ≠ []) : pyMin l ∈ l := by
  cases l with
  | nil => exact absurd rfl h
  | cons a t =>
      rcases foldl_min_mem t a with h1 | h1
      · rw [pyMin, h1]; exact List.mem_cons_self a t
      · rw [pyMin]; exact List.mem_cons_of_mem a h1

lemma pyMin_lb (l : List Int) : ∀ x ∈ l, pyMin l ≤ x := by
  cases l with
  | nil => intro x hx; cases hx
  | cons a t =>
      intro x hx
      rcases List.mem_cons.mp hx with h1 | h2
      · subst h1; exact foldl_min_le t x x le_rfl
      · exact foldl_min_le_mem t a x h2

lemma alookup_addToGroup_same (gs : List (String × List Sample)) (c : String) (s : Sample) :
    alookup c (addToGroup gs c s) = some ((alookup c gs).getD [] ++ [s]) := by
  induction gs with
  | nil => simp [addToGroup, alookup]
  | cons p rest ih =>
      obtain ⟨k, ss⟩ := p
      by_cases h : k = c
      · subst h
        simp [addToGroup, alookup]
      · simp [addToGroup, alookup, h, ih]

lemma alookup_addToGroup_ne (gs : List (String × List Sample)) (c c0 : String) (s : Sample)
    (h : c0 ≠ c) : alookup c (addToGroup gs c0 s) = alookup c gs := by
  induction gs with
  | nil => simp [addToGroup, alookup, h]
  | cons p rest ih =>
      obtain ⟨k, ss⟩ := p
      by_cases hk : k = c0
      · subst hk
        simp [addToGroup, alookup, h]
      · by_cases hc : k = c
        · subst hc
          simp [addToGroup, alookup, hk]
        · simp [addToGroup, alookup, hk, hc, ih]

lemma groupFold_lookup (labels : List Label) : ∀ (gs : List (String × List Sample)) (c : String),
    alookup c (labels.foldl groupStep gs) = combineG (alookup c gs) (camOf labels c) := by
  induction labels with
  | nil =>
      intro gs c
      cases h : alookup c gs <;> simp [camOf, combineG, h]
  | cons l rest ih =>
      intro gs c
      show alookup c (rest.foldl groupStep (groupStep gs l)) = _
      rw [ih]
      cases h : truthyId l with
      | none =>
          have hcam : camOf (l :: rest) c = camOf rest c := by simp [camOf, h]
          simp [groupStep, h, hcam]
      | some c0 =>
          by_cases hc : c0 = c
          · subst hc
            have hstep : groupStep gs l = addToGroup gs c0 (sampleOf l) := by
              simp [groupStep, h]
            have hcam : camOf (l :: rest) c0 = sampleOf l :: camOf rest c0 := by
              simp [camOf, h]
            rw [hstep, alookup_addToGroup_same, hcam]
            cases h2 : alookup c0 gs with
            | none => simp [combineG]
            | some ss => cases hr : camOf rest c0 <;> simp [combineG]
          · have hstep : groupStep gs l = addToGroup gs c0 (sampleOf l) := by
              simp [groupStep, h]
            have hcam : camOf (l :: rest) c = camOf rest c := by
              simp [camOf, h, hc]
            rw [hstep, alookup_addToGroup_ne gs c c0 (sampleOf l) hc, hcam]

lemma groupSamples_lookup (labels : List Label) (c : String) :
    alookup c (groupSamples labels) = combineG none (camOf labels c) := by
  have h := groupFold_lookup labels [] c
  simpa [groupSamples, alookup] using h

lemma groupSamples_lookup_some {labels : List Label} {c : String} {ss : List Sample}
    (h : alookup c (groupSamples labels) = some ss) : ss = camOf labels c ∧ ss ≠ [] := by
  rw [groupSamples_lookup] at h
  cases hcam : camOf labels c with
  | nil => rw [hcam] at h; exact absurd h (by simp [combineG])
  | cons s l =>
      rw [hcam] at h
      simp only [combineG, Option.some.injEq] at h
      subst h
      exact ⟨rfl, by simp⟩

lemma keys_addToGroup (gs : List (String × List Sample)) (c : String) (s : Sample) :
    (addToGroup gs c s).map Prod.fst =
      if c ∈ gs.map Prod.fst then gs.map Prod.fst else gs.map Prod.fst ++ [c] := by
  induction gs with
  | nil => simp [addToGroup]
  | cons p rest ih =>
      obtain ⟨k, ss⟩ := p
      by_cases h : k = c
      · subst h
        simp [addToGroup]
      · have hne : ¬ c = k := fun h2 => h h2.symm
        by_cases hm : c ∈ rest.map Prod.fst <;>
          simp [addToGroup, h, ih, hne, hm]

lemma groupFold_keys (labels : List Label) : ∀ gs : List (String × List Sample),
    ∃ Δ : List String,
      (labels.foldl groupStep gs).map Prod.fst = gs.map Prod.fst ++ Δ ∧
      List.Sublist Δ (labels.filterMap truthyId) ∧
      (∀ c ∈ Δ, c ∉ gs.map Prod.fst) ∧
      Δ.Nodup := by
  induction labels with
  | nil =>
      intro gs
      exact ⟨[], by simp, List.nil_sublist _, by simp, List.nodup_nil⟩
  | cons l rest ih =>
      intro gs
      show ∃ Δ, (rest.foldl groupStep (groupStep gs l)).map Prod.fst = _ ∧ _
      cases h : truthyId l with
      | none =>
          have hstep : groupStep gs l = gs := by simp [groupStep, h]
          rw [hstep]
          obtain ⟨Δ, h1, h2, h3, h4⟩ := ih gs
          refine ⟨Δ, h1, ?_, h3, h4⟩
          simpa [List.filterMap_cons, h] using h2
      | some c0 =>
          obtain ⟨Δ, h1, h2, h3, h4⟩ := ih (groupStep gs l)
          have hstep : groupStep gs l = addToGroup gs c0 (sampleOf l) := by
            simp [groupStep, h]
          have hkeys : (groupStep gs l).map Prod.fst =
              if c0 ∈ gs.map Prod.fst then gs.map Prod.fst else gs.map Prod.fst ++ [c0] := by
            rw [hstep, keys_addToGroup]
          have hfm : (l :: rest).filterMap truthyId = c0 :: rest.filterMap truthyId := by
            simp [List.filterMap_cons, h]
          by_cases hm : c0 ∈ gs.map Prod.fst
          · rw [if_pos hm] at hkeys
            rw [hkeys] at h1 h3
            refine ⟨Δ, h1, ?_, h3, h4⟩
            rw [hfm]
            exact h2.cons c0
          · rw [if_neg hm] at hkeys
            rw [hkeys] at h1 h3
            refine ⟨c0 :: Δ, ?_, ?_, ?_, ?_⟩
            · rw [h1, List.append_assoc]
              rfl
            · rw [hfm]
              exact h2.cons₂ c0
            · intro c hc
              rcases List.mem_cons.mp hc with rfl | hc2
              · exact hm
              · intro hmem
                exact h3 c hc2 (by simp [hmem])
            · rw [List.nodup_cons]
              refine ⟨fun hin => ?_, h4⟩
              exact h3 c0 hin (by simp)

lemma groupSamples_keys (labels : List Label) :
    List.Sublist ((groupSamples labels).map Prod.fst) (labels.filterMap truthyId) ∧
    ((groupSamples labels).map Prod.fst).Nodup := by
  obtain ⟨Δ, h1, h2, _, h4⟩ := groupFold_keys labels []
  have he : (groupSamples labels).map Prod.fst = Δ := by simpa [groupSamples] using h1
  rw [he]
  exact ⟨h2, h4⟩

lemma aggregateStats_ok (f : String → List Sample → Except Unit SiteStats) :
    ∀ (gs : List (String × List Sample)) (res : List (String × SiteStats)),
    aggregateStats f gs = Except.ok res →
    res.map Prod.fst = gs.map Prod.fst ∧
    (∀ c st, alookup c res = some st → ∃ ss, alookup c gs = some ss ∧ f c ss = Except.ok st) := by
  intro gs
  induction gs with
  | nil =>
      intro res h
      simp only [aggregateStats, Except.ok.injEq] at h
      subst h
      exact ⟨rfl, fun c st h2 => by simp [alookup] at h2⟩
  | cons p rest ih =>
      obtain ⟨c0, ss0⟩ := p
      intro res h
      simp only [aggregateStats] at h
      cases hf : f c0 ss0 with
      | error e => rw [hf] at h; exact absurd h (by simp)
      | ok st0 =>
          rw [hf] at h
          cases hrest : aggregateStats f rest with
          | error e => rw [hrest] at h; exact absurd h (by simp)
          | ok res0 =>
              rw [hrest] at h
              simp only [Except.ok.injEq] at h
              subst h
              obtain ⟨ih1, ih2⟩ := ih res0 hrest
              constructor
              · simp [ih1]
              · intro c st hl
                by_cases hc : c0 = c
                · subst hc
                  simp [alookup] at hl
                  subst hl
                  exact ⟨ss0, by simp [alookup], hf⟩
                · simp only [alookup, if_neg hc] at hl ⊢
                  exact ih2 c st hl

lemma joinNotes_ok {samples : List Sample} {notes : String}
    (h : joinNotes samples = Except.ok notes) :
    allSome (samples.map Sample.detailed_notes) ≠ none := by
  intro h2
  rw [joinNotes, h2] at h
  exact absurd h (by simp)

lemma site_aggregates_batch_fields {cid : String} {ss : List Sample} {st : SiteStats}
    (h : site_aggregates_batch cid ss = Except.ok st) :
    st.samples = ss ∧ st.name = cid ∧
    st.avg_truck_count = (if ss.filterMap Sample.truck_count = [] then 0
      else pyDiv (ss.filterMap Sample.truck_count).sum (ss.filterMap Sample.truck_count).length) ∧
    st.max_truck_count = (if ss.filterMap Sample.truck_count = [] then 0
      else pyMax (ss.filterMap Sample.truck_count)) ∧
    st.min_truck_count = some (if ss.filterMap Sample.truck_count = [] then 0
      else pyMin (ss.filterMap Sample.truck_count)) ∧
    st.avg_occupancy = (if ss.filterMap Sample.occupancy_percent = [] then 0
      else pyDiv (ss.filterMap Sample.occupancy_percent).sum
        (ss.filterMap Sample.occupancy_percent).length) ∧
    st.sample_count = ss.length ∧
    ∃ notes, joinNotes ss = Except.ok notes ∧
      st.detection_tips = (if snowIn notes then winterTip else standardTip) := by
  revert h
  unfold site_aggregates_batch
  cases hj : joinNotes ss with
  | error e => intro h; exact absurd h (by simp)
  | ok notes =>
      intro h
      simp only [Except.ok.injEq] at h
      subst h
      refine ⟨rfl, rfl, rfl, rfl, rfl, rfl, rfl, notes, rfl, rfl⟩

lemma site_aggregates_pipeline_fields {cid : String} {ss : List Sample} {st : SiteStats}
    (h : site_aggregates_pipeline cid ss = Except.ok st) :
    st.samples = ss ∧ st.name = cid ∧
    st.avg_truck_count = (if ss.filterMap Sample.truck_count = [] then 0
      else pyDiv (ss.filterMap Sample.truck_count).sum (ss.filterMap Sample.truck_count).length) ∧
    st.max_truck_count = (if ss.filterMap Sample.truck_count = [] then 0
      else pyMax (ss.filterMap Sample.truck_count)) ∧
    st.min_truck_count = none ∧
    st.avg_occupancy = (if ss.filterMap Sample.occupancy_percent = [] then 0
      else pyDiv (ss.filterMap Sample.occupancy_percent).sum
        (ss.filterMap Sample.occupancy_percent).length) ∧
    st.sample_count = ss.length ∧
    ∃ notes, joinNotes ss = Except.ok notes ∧
      st.detection_tips = (if snowIn notes then winterTip else standardTip) := by
  revert h
  unfold site_aggregates_pipeline
  cases hj : joinNotes ss with
  | error e => intro h; exact absurd h (by simp)
  | ok notes =>
      intro h
      simp only [Except.ok.injEq] at h
      subst h
      refine ⟨rfl, rfl, rfl, rfl, rfl, rfl, rfl, notes, rfl, rfl⟩

lemma round_branch_nearest (f r d : Int) (x : ℚ) (hd : 0 < d) (h0 : 0 ≤ r) (hrd : r < d)
    (hx : x = (f : ℚ) + (r : ℚ) / (d : ℚ)) :
    |((if 2 * r < d then f
       else if d < 2 * r then f + 1
       else if f % 2 = 0 then f else f + 1 : Int) : ℚ) - x| ≤ 1 / 2 := by
  have hdQ : (0 : ℚ) < (d : ℚ) := by exact_mod_cast hd
  have hfrac0 : (0 : ℚ) ≤ (r : ℚ) / (d : ℚ) :=
    div_nonneg (by exact_mod_cast h0) (le_of_lt hdQ)
  have hfrac1 : (r : ℚ) / (d : ℚ) < 1 := by
    rw [div_lt_one hdQ]
    exact_mod_cast hrd
  split_ifs with h1 h2 h3
  · have hhalf : (r : ℚ) / (d : ℚ) ≤ 1 / 2 := by
      rw [div_le_iff₀ hdQ]
      have hi : (2 * r : ℚ) ≤ (d : ℚ) := by exact_mod_cast le_of_lt h1
      linarith
    rw [hx, abs_le]
    constructor <;> linarith
  · have hhalf2 : (1 : ℚ) / 2 ≤ (r : ℚ) / (d : ℚ) := by
      rw [le_div_iff₀ hdQ]
      have hi : (d : ℚ) ≤ (2 * r : ℚ) := by exact_mod_cast le_of_lt h2
      linarith
    rw [hx, abs_le]
    push_cast
    constructor <;> linarith
  · have heq : (r : ℚ) / (d : ℚ) = 1 / 2 := by
      rw [div_eq_iff (ne_of_gt hdQ)]
      have hi : (2 * r : ℚ) = (d : ℚ) := by exact_mod_cast (by omega : 2 * r = d)
      linarith
    rw [hx, abs_le, heq]
    constructor <;> linarith
  · have heq : (r : ℚ) / (d : ℚ) = 1 / 2 := by
      rw [div_eq_iff (ne_of_gt hdQ)]
      have hi : (2 * r : ℚ) = (d : ℚ) := by exact_mod_cast (by omega : 2 * r = d)
      linarith
    rw [hx, abs_le, heq]
    push_cast
    constructor <;> linarith

lemma pyRound_nearest (q : ℚ) : |(pyRound q : ℚ) - q| ≤ 1 / 2 := by
  have hd : (0 : Int) < (q.den : Int) := by exact_mod_cast q.den_pos
  have hdm := Int.ediv_add_emod q.num (q.den : Int)
  have hr0 : 0 ≤ q.num % (q.den : Int) := Int.emod_nonneg q.num (by omega)
  have hrd : q.num % (q.den : Int) < (q.den : Int) := Int.emod_lt_of_pos q.num hd
  have hx : q = ((q.num / (q.den : Int) : Int) : ℚ) +
      ((q.num % (q.den : Int) : Int) : ℚ) / (((q.den : Int) : Int) : ℚ) := by
    have hdQ : (0 : ℚ) < (((q.den : Int) : Int) : ℚ) := by exact_mod_cast hd
    have hne : (((q.den : Int) : Int) : ℚ) ≠ 0 := ne_of_gt hdQ
    have h3 : ((q.num / (q.den : Int) : Int) : ℚ) +
        ((q.num % (q.den : Int) : Int) : ℚ) / (((q.den : Int) : Int) : ℚ) =
        (((q.den : Int) * (q.num / (q.den : Int)) + q.num % (q.den : Int) : Int) : ℚ) /
          (((q.den : Int) : Int) : ℚ) := by
      push_cast
      field_simp
      ring
    rw [h3, hdm]
    push_cast
    exact (Rat.num_div_den q).symm
  exact round_branch_nearest (q.num / (q.den : Int)) (q.num % (q.den : Int)) (q.den : Int)
    q hd hr0 hrd hx

lemma pyTailFrom_ge_one {α : Type} (l : List α) (n : Int) (h : 1 ≤ n) :
    pyTailFrom l (-n) = l.drop (l.length - n.toNat) := by
  unfold pyTailFrom pyClampIdx
  have h1 : (-n : Int) < 0 := by omega
  rw [if_pos h1]
  congr 1
  split_ifs with h2 <;> omega

lemma examplesText_take3 (exs : List Sample) :
    examplesText (exs.take 3) = examplesText exs := by
  unfold examplesText
  rw [List.take_take]
  norm_num

lemma get_haiku_prompt_take3 (sk : SiteKnowledge) (exs : List Sample) :
    get_haiku_production_prompt sk exs = get_haiku_production_prompt sk (exs.take 3) := by
  unfold get_haiku_production_prompt
  rw [examplesText_take3]

lemma formatExample_ok {i : Nat} {ex : Sample} {s : String}
    (h : formatExample i ex = Except.ok s) :
    ∃ nd, ex.detailed_notes = some nd ∧ s = exampleBlock i ex (pyTake nd 100) := by
  revert h
  unfold formatExample
  cases hn : ex.detailed_notes with
  | none => intro h; exact absurd h (by simp)
  | some nd =>
      intro h
      simp only [Except.ok.injEq] at h
      exact ⟨nd, rfl, h.symm⟩

lemma pyTake_length_le (s : String) (n : Nat) : (pyTake s n).length ≤ n := by
  show (s.toList.take n).length ≤ n
  rw [List.length_take]
  exact min_le_left _ _

lemma recordLabel_nodup {images : List Label} {label : Label}
    (h : (images.map Label.image_path).Nodup) :
    (((recordLabel images label).1).map Label.image_path).Nodup := by
  unfold recordLabel
  by_cases hm : label.image_path ∈ images.map Label.image_path
  · rw [if_pos hm]
    exact h
  · rw [if_neg hm]
    have hperm : (images.map Label.image_path ++ [label.image_path]).Perm
        (label.image_path :: images.map Label.image_path) := List.perm_append_comm
    simp only [List.map_append, List.map_cons, List.map_nil]
    rw [hperm.nodup_iff, List.nodup_cons]
    exact ⟨hm, h⟩

lemma recordFold_nodup (ls : List Label) : ∀ im : List Label,
    (im.map Label.image_path).Nodup →
    ((ls.foldl (fun im l => (recordLabel im l).1) im).map Label.image_path).Nodup := by
  induction ls with
  | nil => intro im h; exact h
  | cons l rest ih =>
      intro im h
      exact ih _ (recordLabel_nodup h)

/-- C3: for every input text, the response extractor takes the slice between
the first open brace and one past the last close brace; when that slice
parses it returns the parsed structured result, and otherwise (parse
failure, or absent or misordered braces) it returns the original text
verbatim flagged as unparsed, never raising; on the two scenario inputs the
first yields a parsed result with truck_count 4 and the second the raw
result holding the original text.  Both extractor instances are covered,
including the explicit brace check of the rag variant. -/
theorem extract_response_spec :
    (∀ text : String,
      (∃ j, jsonParse (extractCandidate text) = some j ∧
        extract_label text = ExtractResult.parsed j) ∨
      (jsonParse (extractCandidate text) = none ∧
        extract_label text = ExtractResult.raw text true)) ∧
    (∀ text : String,
      (∃ j, extract_rag text = RagResult.parsed j) ∨ extract_rag text = RagResult.raw text) ∧
    (∀ text : String,
      ¬ (0 ≤ pyFind text '\x7b' ∧ pyFind text '\x7b' < pyRfind text '\x7d' + 1) →
      extract_rag text = RagResult.raw text) ∧
    extract_label "Here is the result: \x7b\"truck_count\": 4\x7d thanks" =
      ExtractResult.parsed (Json.obj [("truck_count", Json.num 4)]) ∧
    extract_label "no json here" = ExtractResult.raw "no json here" true ∧
    extract_rag "Here is the result: \x7b\"truck_count\": 4\x7d thanks" =
      RagResult.parsed (Json.obj [("truck_count", Json.num 4)]) ∧
    extract_rag "no json here" = RagResult.raw "no json here" := by
  refine ⟨?_, ?_, ?_, rfl, rfl, rfl, rfl⟩
  · intro text
    unfold extract_label
    cases h : jsonParse (extractCandidate text) with
    | none => exact Or.inr ⟨rfl, rfl⟩
    | some j => exact Or.inl ⟨j, rfl, rfl⟩
  · intro text
    unfold extract_rag
    by_cases hb : 0 ≤ pyFind text '\x7b' ∧
        pyFind text '\x7b' < pyRfind text '\x7d' + 1
    · rw [if_pos hb]
      cases h : jsonParse (pySlice text (pyFind text '\x7b') (pyRfind text '\x7d' + 1)) with
      | none => exact Or.inr rfl
      | some j => exact Or.inl ⟨j, rfl⟩
    · rw [if_neg hb]
      exact Or.inr rfl
  · intro text hb
    unfold extract_rag
    rw [if_neg hb]

/-- C3 witness: the brace-check branch of the rag extractor at a concrete
input without a JSON object. -/
theorem extract_response_spec_witness :
    ¬ (0 ≤ pyFind "no json here" '\x7b' ∧
      pyFind "no json here" '\x7b' < pyRfind "no json here" '\x7d' + 1) ∧
    extract_rag "no json here" = RagResult.raw "no json here" :=
  ⟨by decide, extract_response_spec.2.2.1 "no json here" (by decide)⟩

/-- C4: statistics recomputation reads only the images list and replaces the
sites mapping wholesale, so a second recomputation on the updated store
returns exactly the same store, field for field. -/
theorem recompute_idempotent :
    ∀ store store' : TrainingStore,
      compute_site_statistics_update store = Except.ok store' →
      compute_site_statistics_update store' = Except.ok store' ∧
      store'.images = store.images := by
  intro store store' h
  unfold compute_site_statistics_update at h ⊢
  cases hc : compute_site_statistics store.images with
  | error e =>
      rw [hc] at h
      exact absurd h (by simp [Except.map])
  | ok s =>
      rw [hc] at h
      simp only [Except.map, Except.ok.injEq] at h
      subst h
      constructor
      · show (compute_site_statistics store.images).map _ = _
        rw [hc]
        rfl
      · rfl

/-- C4 witness: recomputation over the empty store, applied twice. -/
theorem recompute_idempotent_witness :
    compute_site_statistics_update { images := [], sites := [] } =
      Except.ok { images := [], sites := [] } ∧
    ({ images := [], sites := [] } : TrainingStore).images = ([] : List Label) :=
  ⟨(recompute_idempotent { images := [], sites := [] } { images := [], sites := [] } rfl).1,
   (recompute_idempotent { images := [], sites := [] } { images := [], sites := [] } rfl).2⟩

/-- C5: contrary to the claim, statistics recomputation raises on a label
history holding a label without detailed_notes: the sample dict stores None
under the key, so the .get default never applies and the join raises
TypeError.  The tip rule itself behaves as described when every note is
present: the winter tip is chosen exactly when snow occurs case-insensitively
in the concatenated notes, the standard tip otherwise. -/
theorem compute_stats_crash_on_missing_notes :
    compute_site_statistics
      [{ camera_id := some "X", image_path := "bad.png", truck_count := some 2 }] =
      Except.error () ∧
    compute_site_stats
      [{ camera_id := some "X", image_path := "bad.png", truck_count := some 2 }] =
      Except.error () ∧
    ((compute_site_statistics
        [{ camera_id := some "Y", image_path := "s.png",
           detailed_notes := some "light Snow cover" }]).toOption.bind
      (alookup "Y")).map SiteStats.detection_tips = some winterTip ∧
    ((compute_site_statistics
        [{ camera_id := some "Z", image_path := "c.png",
           detailed_notes := some "clear view" }]).toOption.bind
      (alookup "Z")).map SiteStats.detection_tips = some standardTip :=
  ⟨rfl, rfl, rfl, rfl⟩

/-- C2 counterexample: the store append of label_image_with_opus has no
duplicate-path guard, so recording a label whose image_path is already
stored grows the store to two labels and breaks image_path uniqueness. -/
theorem label_image_with_opus_duplicates :
    (label_image_record [{ image_path := "img1.png" }] { image_path := "img1.png" }).length = 2 ∧
    label_image_record [{ image_path := "img1.png" }] { image_path := "img1.png" } ≠
      [{ image_path := "img1.png" }] ∧
    ¬ ((label_image_record [{ image_path := "img1.png" }]
        { image_path := "img1.png" }).map Label.image_path).Nodup :=
  ⟨rfl, by decide, by decide⟩

/-- C2 amended: the record step of the batch labeling flow is a no-op on a
duplicate image_path, inserts a fresh path with a true flag, and preserves
image_path uniqueness over every sequence of records; the claim does not
hold for TrainingPipeline.label_image_with_opus, whose append is
unconditional. -/
theorem record_dedup :
    (∀ (images : List Label) (label : Label),
      (label.image_path ∈ images.map Label.image_path →
        recordLabel images label = (images, false)) ∧
      (label.image_path ∉ images.map Label.image_path →
        recordLabel images label = (images ++ [label], true)) ∧
      ((images.map Label.image_path).Nodup →
        (((recordLabel images label).1).map Label.image_path).Nodup)) ∧
    (∀ ls : List Label, ((recordSeq ls).map Label.image_path).Nodup) := by
  constructor
  · intro images label
    refine ⟨fun h => ?_, fun h => ?_, fun h => recordLabel_nodup h⟩
    · unfold recordLabel
      rw [if_pos h]
    · unfold recordLabel
      rw [if_neg h]
  · intro ls
    exact recordFold_nodup ls [] (by simp)

/-- C2 witness: a duplicate record on a one-label store is a no-op. -/
theorem record_dedup_witness :
    ({ image_path := "img1.png" } : Label).image_path ∈
      ([{ image_path := "img1.png" }] : List Label).map Label.image_path ∧
    recordLabel [{ image_path := "img1.png" }] { image_path := "img1.png" } =
      ([{ image_path := "img1.png" }], false) :=
  ⟨by decide,
   (record_dedup.1 [{ image_path := "img1.png" }] { image_path := "img1.png" }).1 (by decide)⟩

/-- C6 counterexample: for an unseen camera the name field of
get_site_knowledge falls back to the requested camera id, not to the string
Unknown, and avg_capacity, a numeric aggregate, falls back to the string
Unknown rather than to 0. -/
theorem site_knowledge_unknown_name :
    (get_site_knowledge { images := [], sites := [] } "UNKNOWN_CAM").name = "UNKNOWN_CAM" ∧
    (get_site_knowledge { images := [], sites := [] } "UNKNOWN_CAM").name ≠ "Unknown" ∧
    (get_site_knowledge { images := [], sites := [] } "UNKNOWN_CAM").avg_capacity =
      StrOrNum.str "Unknown" :=
  ⟨rfl, by decide, rfl⟩

/-- C6 amended: for every camera id without a sites entry, get_site_knowledge
returns without failing and each field takes its defined fallback: the name
falls back to the camera id itself, avg_capacity to the string Unknown,
avg_occupancy and sample_count to 0, and detection_tips to the generic tip. -/
theorem site_knowledge_fallbacks :
    ∀ (store : TrainingStore) (camera_id : String),
      alookup camera_id store.sites = none →
      get_site_knowledge store camera_id =
        { name := camera_id, avg_capacity := StrOrNum.str "Unknown", avg_occupancy := 0,
          detection_tips := "Count semi-truck trailers", sample_count := 0 } := by
  intro store cid h
  simp only [get_site_knowledge, h]
  congr 1

/-- C6 witness: the fallback record on the empty store. -/
theorem site_knowledge_fallbacks_witness :
    alookup "UNKNOWN_CAM" ({ images := [], sites := [] } : TrainingStore).sites = none ∧
    get_site_knowledge { images := [], sites := [] } "UNKNOWN_CAM" =
      { name := "UNKNOWN_CAM", avg_capacity := StrOrNum.str "Unknown", avg_occupancy := 0,
        detection_tips := "Count semi-truck trailers", sample_count := 0 } :=
  ⟨rfl, site_knowledge_fallbacks { images := [], sites := [] } "UNKNOWN_CAM" rfl⟩

/-- C7 counterexample: at n = 0 the slice samples[-n:] is samples[0:], so
get_similar_examples returns the whole samples list instead of the empty
suffix of length min 0 len the claim requires. -/
theorem similar_examples_zero :
    get_similar_examples
        { images := [],
          sites := [("X", { samples := [{ truck_count := some 1 }, { truck_count := some 2 }] })] }
        "X" 0 =
      [{ truck_count := some 1 }, { truck_count := some 2 }] ∧
    ([{ truck_count := some 1 }, { truck_count := some 2 }] : List Sample) ≠ [] ∧
    (get_similar_examples
        { images := [],
          sites := [("X", { samples := [{ truck_count := some 1 }, { truck_count := some 2 }] })] }
        "X" 0).length ≠ min (Int.toNat 0) 2 :=
  ⟨rfl, by decide, by decide⟩

/-- C7 amended: for every store, camera and n with 1 ≤ n,
get_similar_examples returns exactly the suffix of the samples list of
length min n len, in stored order, and the empty list when the site has no
samples; for n = 0 the source returns the whole list instead. -/
theorem similar_examples_suffix :
    ∀ (store : TrainingStore) (camera_id : String) (n : Int), 1 ≤ n →
      get_similar_examples store camera_id n =
        (siteSamples store camera_id).drop ((siteSamples store camera_id).length - n.toNat) ∧
      (get_similar_examples store camera_id n).length =
        min n.toNat (siteSamples store camera_id).length ∧
      (siteSamples store camera_id = [] → get_similar_examples store camera_id n = []) := by
  intro store cid n h
  unfold get_similar_examples
  by_cases hs : siteSamples store cid = []
  · rw [if_pos hs, hs]
    refine ⟨by simp, by simp, fun _ => rfl⟩
  · rw [if_neg hs]
    rw [pyTailFrom_ge_one _ n h]
    refine ⟨rfl, ?_, fun hcontra => absurd hcontra hs⟩
    rw [List.length_drop]
    omega

/-- C7 witness: a recency window of one over a two-sample site. -/
theorem similar_examples_suffix_witness :
    get_similar_examples
        { images := [],
          sites := [("X", { samples := [{ truck_count := some 1 }, { truck_count := some 2 }] })] }
        "X" 1 =
      (siteSamples
          { images := [],
            sites := [("X", { samples := [{ truck_count := some 1 }, { truck_count := some 2 }] })] }
          "X").drop
        ((siteSamples
            { images := [],
              sites := [("X", { samples := [{ truck_count := some 1 }, { truck_count := some 2 }] })] }
            "X").length - (1 : Int).toNat) :=
  (similar_examples_suffix _ "X" 1 (by decide)).1

/-- C8: the dynamic-context prompt uses at most the first three retrieved
examples (the prompt is unchanged by dropping everything past the third),
and every formatted example block carries the notes text sliced to its
first 100 characters, hence at most 200 characters. -/
theorem haiku_prompt_bounds :
    (∀ (site_knowledge : SiteKnowledge) (similar_examples : List Sample),
      get_haiku_production_prompt site_knowledge similar_examples =
        get_haiku_production_prompt site_knowledge (similar_examples.take 3)) ∧
    (∀ (i : Nat) (ex : Sample) (s : String), formatExample i ex = Except.ok s →
      ∃ nd, ex.detailed_notes = some nd ∧ s = exampleBlock i ex (pyTake nd 100) ∧
        (pyTake nd 100).length ≤ 200) := by
  constructor
  · exact get_haiku_prompt_take3
  · intro i ex s h
    obtain ⟨nd, h1, h2⟩ := formatExample_ok h
    exact ⟨nd, h1, h2, le_trans (pyTake_length_le nd 100) (by norm_num)⟩

/-- C8 witness: one formatted example block with a short note. -/
theorem haiku_prompt_bounds_witness :
    formatExample 1 ({ detailed_notes := some "snowy lot" } : Sample) =
      Except.ok (exampleBlock 1 { detailed_notes := some "snowy lot" } (pyTake "snowy lot" 100)) ∧
    ∃ nd, ({ detailed_notes := some "snowy lot" } : Sample).detailed_notes = some nd ∧
      exampleBlock 1 { detailed_notes := some "snowy lot" } (pyTake "snowy lot" 100) =
        exampleBlock 1 { detailed_notes := some "snowy lot" } (pyTake nd 100) ∧
      (pyTake nd 100).length ≤ 200 :=
  ⟨rfl, haiku_prompt_bounds.2 1 { detailed_notes := some "snowy lot" }
    (exampleBlock 1 { detailed_notes := some "snowy lot" } (pyTake "snowy lot" 100)) rfl⟩

/-- C9: for a camera whose site statistics exist, the avg_capacity field of
get_site_knowledge is exactly the stored max_truck_count aggregate and the
returned avg_occupancy is the stored average passed through the Python
round builtin, which always yields an integer within one half of the exact
average. -/
theorem site_knowledge_capacity_rounding :
    (∀ (store : TrainingStore) (camera_id : String) (sd : SiteStats),
      alookup camera_id store.sites = some sd →
      (get_site_knowledge store camera_id).avg_capacity = StrOrNum.num sd.max_truck_count ∧
      (get_site_knowledge store camera_id).avg_occupancy = pyRound sd.avg_occupancy) ∧
    (∀ q : ℚ, |(pyRound q : ℚ) - q| ≤ 1 / 2) := by
  constructor
  · intro store cid sd h
    unfold get_site_knowledge
    rw [h]
    exact ⟨rfl, rfl⟩
  · exact pyRound_nearest

/-- C9 witness: a site with max count 9 and exact average 7/2, whose
returned occupancy rounds to the even neighbour 4. -/
theorem site_knowledge_capacity_rounding_witness :
    alookup "X" ({ images := [], sites := [("X", { max_truck_count := 9, avg_occupancy := pyDiv 7 2 })] } : TrainingStore).sites = some { max_truck_count := 9, avg_occupancy := pyDiv 7 2 } ∧
    (get_site_knowledge { images := [], sites := [("X", { max_truck_count := 9, avg_occupancy := pyDiv 7 2 })] } "X").avg_capacity = StrOrNum.num (9 : Int) ∧
    (get_site_knowledge { images := [], sites := [("X", { max_truck_count := 9, avg_occupancy := pyDiv 7 2 })] } "X").avg_occupancy = pyRound (pyDiv 7 2) ∧
    pyRound (pyDiv 7 2) = 4 :=
  ⟨rfl,
   (site_knowledge_capacity_rounding.1
     { images := [], sites := [("X", { max_truck_count := 9, avg_occupancy := pyDiv 7 2 })] }
     "X" { max_truck_count := 9, avg_occupancy := pyDiv 7 2 } rfl).1,
   (site_knowledge_capacity_rounding.1
     { images := [], sites := [("X", { max_truck_count := 9, avg_occupancy := pyDiv 7 2 })] }
     "X" { max_truck_count := 9, avg_occupancy := pyDiv 7 2 } rfl).2,
   by decide⟩

lemma pyDiv_eq_div (n : Int) (d : Nat) : pyDiv n d = (n : ℚ) / (d : ℚ) := by
  unfold pyDiv
  rw [Rat.divInt_eq_div]
  norm_num

/-- C1 (amended): both recomputations group the labels by camera id
preserving insertion order (the group keys are a duplicate-free sublist of
the label camera ids, and each group holds exactly the samples of its
camera in label order); per group, the average is taken over exactly the
labels whose truck_count is present, max is an upper bound attained in
that subsequence, avg_occupancy averages exactly the present occupancies,
and sample_count counts the whole group.  Only compute_site_stats
(label_training_batch.py) also sets min_truck_count;
compute_site_statistics (cv_training_pipeline.py) leaves the key unset.
On the scenario history the batch version yields average 5, max 7, min 3
and sample count 4. -/
theorem compute_stats_spec :
    (∀ (labels : List Label) (res : List (String × SiteStats)),
      compute_site_stats labels = Except.ok res →
      List.Sublist (res.map Prod.fst) (labels.filterMap truthyId) ∧
      (res.map Prod.fst).Nodup ∧
      (∀ (c : String) (st : SiteStats), alookup c res = some st →
        st.samples = (labels.filter (fun l => decide (truthyId l = some c))).map sampleOf ∧
        st.sample_count = st.samples.length ∧
        (st.samples.filterMap Sample.truck_count ≠ [] →
          st.avg_truck_count = ((st.samples.filterMap Sample.truck_count).sum : ℚ) /
            ((st.samples.filterMap Sample.truck_count).length : ℚ) ∧
          st.max_truck_count ∈ st.samples.filterMap Sample.truck_count ∧
          (∀ x ∈ st.samples.filterMap Sample.truck_count, x ≤ st.max_truck_count) ∧
          (∃ m, st.min_truck_count = some m ∧ m ∈ st.samples.filterMap Sample.truck_count ∧
            ∀ x ∈ st.samples.filterMap Sample.truck_count, m ≤ x)) ∧
        (st.samples.filterMap Sample.occupancy_percent ≠ [] →
          st.avg_occupancy = ((st.samples.filterMap Sample.occupancy_percent).sum : ℚ) /
            ((st.samples.filterMap Sample.occupancy_percent).length : ℚ)))) ∧
    (∀ (labels : List Label) (res : List (String × SiteStats)),
      compute_site_statistics labels = Except.ok res →
      List.Sublist (res.map Prod.fst) (labels.filterMap truthyId) ∧
      (res.map Prod.fst).Nodup ∧
      (∀ (c : String) (st : SiteStats), alookup c res = some st →
        st.samples = (labels.filter (fun l => decide (truthyId l = some c))).map sampleOf ∧
        st.sample_count = st.samples.length ∧
        st.min_truck_count = none ∧
        (st.samples.filterMap Sample.truck_count ≠ [] →
          st.avg_truck_count = ((st.samples.filterMap Sample.truck_count).sum : ℚ) /
            ((st.samples.filterMap Sample.truck_count).length : ℚ) ∧
          st.max_truck_count ∈ st.samples.filterMap Sample.truck_count ∧
          (∀ x ∈ st.samples.filterMap Sample.truck_count, x ≤ st.max_truck_count)) ∧
        (st.samples.filterMap Sample.occupancy_percent ≠ [] →
          st.avg_occupancy = ((st.samples.filterMap Sample.occupancy_percent).sum : ℚ) /
            ((st.samples.filterMap Sample.occupancy_percent).length : ℚ)))) ∧
    ((compute_site_stats scenarioLabels).toOption.bind
      (alookup "X")).map SiteStats.avg_truck_count = some 5 ∧
    ((compute_site_stats scenarioLabels).toOption.bind
      (alookup "X")).map SiteStats.max_truck_count = some 7 ∧
    ((compute_site_stats scenarioLabels).toOption.bind
      (alookup "X")).map SiteStats.min_truck_count = some (some 3) ∧
    ((compute_site_stats scenarioLabels).toOption.bind
      (alookup "X")).map SiteStats.sample_count = some 4 := by
  refine ⟨?_, ?_, by decide, by decide, by decide, by decide⟩
  · intro labels res hc
    obtain ⟨hkeys, hlook⟩ := aggregateStats_ok site_aggregates_batch (groupSamples labels) res hc
    obtain ⟨hsub, hnodup⟩ := groupSamples_keys labels
    rw [hkeys]
    refine ⟨hsub, hnodup, ?_⟩
    intro c st hl
    obtain ⟨ss, hss, hf⟩ := hlook c st hl
    obtain ⟨hcam, hne⟩ := groupSamples_lookup_some hss
    obtain ⟨hsamp, _, havg, hmax, hmin, hocc, hcount, _⟩ := site_aggregates_batch_fields hf
    refine ⟨?_, ?_, ?_, ?_⟩
    · rw [hsamp, hcam]
      rfl
    · rw [hcount, hsamp]
    · intro hne2
      rw [hsamp] at hne2
      refine ⟨?_, ?_, ?_, ?_⟩
      · rw [hsamp, havg, if_neg hne2, pyDiv_eq_div]
      · rw [hsamp, hmax, if_neg hne2]
        exact pyMax_mem _ hne2
      · intro x hx
        rw [hsamp] at hx
        rw [hmax, if_neg hne2]
        exact pyMax_ub _ x hx
      · refine ⟨pyMin (ss.filterMap Sample.truck_count), ?_, ?_, ?_⟩
        · rw [hmin, if_neg hne2]
        · rw [hsamp]
          exact pyMin_mem _ hne2
        · intro x hx
          rw [hsamp] at hx
          exact pyMin_lb _ x hx
    · intro ho
      rw [hsamp] at ho
      rw [hsamp, hocc, if_neg ho, pyDiv_eq_div]
  · intro labels res hc
    obtain ⟨hkeys, hlook⟩ :=
      aggregateStats_ok site_aggregates_pipeline (groupSamples labels) res hc
    obtain ⟨hsub, hnodup⟩ := groupSamples_keys labels
    rw [hkeys]
    refine ⟨hsub, hnodup, ?_⟩
    intro c st hl
    obtain ⟨ss, hss, hf⟩ := hlook c st hl
    obtain ⟨hcam, hne⟩ := groupSamples_lookup_some hss
    obtain ⟨hsamp, _, havg, hmax, hmin, hocc, hcount, _⟩ := site_aggregates_pipeline_fields hf
    refine ⟨?_, ?_, hmin, ?_, ?_⟩
    · rw [hsamp, hcam]
      rfl
    · rw [hcount, hsamp]
    · intro hne2
      rw [hsamp] at hne2
      refine ⟨?_, ?_, ?_⟩
      · rw [hsamp, havg, if_neg hne2, pyDiv_eq_div]
      · rw [hsamp, hmax, if_neg hne2]
        exact pyMax_mem _ hne2
      · intro x hx
        rw [hsamp] at hx
        rw [hmax, if_neg hne2]
        exact pyMax_ub _ x hx
    · intro ho
      rw [hsamp] at ho
      rw [hsamp, hocc, if_neg ho, pyDiv_eq_div]

/-- C1 witness: the batch recomputation of the scenario history, with the
grouping and aggregate facts read off the proved specification. -/
theorem compute_stats_spec_witness :
    compute_site_stats scenarioLabels = Except.ok scenarioResult ∧
    alookup "X" scenarioResult = some scenarioStat ∧
    scenarioStat.sample_count = scenarioStat.samples.length ∧
    scenarioStat.avg_truck_count =
      ((scenarioStat.samples.filterMap Sample.truck_count).sum : ℚ) /
        ((scenarioStat.samples.filterMap Sample.truck_count).length : ℚ) :=
  ⟨rfl, rfl,
   ((compute_stats_spec.1 scenarioLabels scenarioResult rfl).2.2 "X" scenarioStat rfl).2.1,
   (((compute_stats_spec.1 scenarioLabels scenarioResult rfl).2.2 "X" scenarioStat rfl).2.2.1
     (by decide)).1⟩

/-- C1 counterexample: on the scenario history the pipeline recomputation
leaves min_truck_count unset (none), not 3 as the claim requires. -/
theorem compute_site_statistics_omits_min :
    ((compute_site_statistics scenarioLabels).toOption.bind (alookup "X")).map
      SiteStats.min_truck_count = some none ∧
    some (none : Option Int) ≠ some (some (3 : Int)) :=
  ⟨by decide, by decide⟩

/-- C10: when a group has no present truck_count, both recomputations set
avg_truck_count and max_truck_count to 0 rather than omitting them (the
batch version also sets min_truck_count to 0), and likewise avg_occupancy
is 0 when no occupancy is present; concretely, a two-label site with only
missing counts has the same aggregates as one whose observed counts are
all zero. -/
theorem missing_counts_zero :
    (∀ (labels : List Label) (res : List (String × SiteStats)) (c : String) (st : SiteStats),
      compute_site_statistics labels = Except.ok res → alookup c res = some st →
      (st.samples.filterMap Sample.truck_count = [] →
        st.avg_truck_count = 0 ∧ st.max_truck_count = 0) ∧
      (st.samples.filterMap Sample.occupancy_percent = [] → st.avg_occupancy = 0)) ∧
    (∀ (labels : List Label) (res : List (String × SiteStats)) (c : String) (st : SiteStats),
      compute_site_stats labels = Except.ok res → alookup c res = some st →
      (st.samples.filterMap Sample.truck_count = [] →
        st.avg_truck_count = 0 ∧ st.max_truck_count = 0 ∧ st.min_truck_count = some 0) ∧
      (st.samples.filterMap Sample.occupancy_percent = [] → st.avg_occupancy = 0)) ∧
    ((compute_site_statistics
        [{ camera_id := some "W", image_path := "w1.png", detailed_notes := some "row a" },
         { camera_id := some "W", image_path := "w2.png", detailed_notes := some "row b" }]).toOption.bind
      (alookup "W")).map
        (fun st => (st.avg_truck_count, st.max_truck_count, st.avg_occupancy, st.sample_count)) =
    ((compute_site_statistics
        [{ camera_id := some "W", image_path := "z1.png", truck_count := some 0,
           occupancy_percent := some 0, detailed_notes := some "row a" },
         { camera_id := some "W", image_path := "z2.png", truck_count := some 0,
           occupancy_percent := some 0, detailed_notes := some "row b" }]).toOption.bind
      (alookup "W")).map
        (fun st => (st.avg_truck_count, st.max_truck_count, st.avg_occupancy, st.sample_count)) := by
  refine ⟨?_, ?_, by decide⟩
  · intro labels res c st hc hl
    obtain ⟨_, hlook⟩ :=
      aggregateStats_ok site_aggregates_pipeline (groupSamples labels) res hc
    obtain ⟨ss, _, hf⟩ := hlook c st hl
    obtain ⟨hsamp, _, havg, hmax, _, hocc, _, _⟩ := site_aggregates_pipeline_fields hf
    constructor
    · intro hempty
      rw [hsamp] at hempty
      exact ⟨by rw [havg, if_pos hempty], by rw [hmax, if_pos hempty]⟩
    · intro hempty
      rw [hsamp] at hempty
      rw [hocc, if_pos hempty]
  · intro labels res c st hc hl
    obtain ⟨_, hlook⟩ := aggregateStats_ok site_aggregates_batch (groupSamples labels) res hc
    obtain ⟨ss, _, hf⟩ := hlook c st hl
    obtain ⟨hsamp, _, havg, hmax, hmin, hocc, _, _⟩ := site_aggregates_batch_fields hf
    constructor
    · intro hempty
      rw [hsamp] at hempty
      exact ⟨by rw [havg, if_pos hempty], by rw [hmax, if_pos hempty],
        by rw [hmin, if_pos hempty]⟩
    · intro hempty
      rw [hsamp] at hempty
      rw [hocc, if_pos hempty]

/-- C10 witness: the all-missing two-label site evaluated through the
pipeline recomputation. -/
theorem missing_counts_zero_witness :
    compute_site_statistics
        [{ camera_id := some "W", image_path := "w1.png", detailed_notes := some "row a" },
         { camera_id := some "W", image_path := "w2.png", detailed_notes := some "row b" }] =
      Except.ok [("W",
        { samples := [{ detailed_notes := some "row a" }, { detailed_notes := some "row b" }],
          name := "W", sample_count := 2, detection_tips := standardTip })] ∧
    ({ samples := [{ detailed_notes := some "row a" }, { detailed_notes := some "row b" }],
       name := "W", sample_count := 2,
       detection_tips := standardTip } : SiteStats).avg_truck_count = 0 ∧
    ({ samples := [{ detailed_notes := some "row a" }, { detailed_notes := some "row b" }],
       name := "W", sample_count := 2,
       detection_tips := standardTip } : SiteStats).max_truck_count = 0 :=
  ⟨rfl,
   ((missing_counts_zero.1
      [{ camera_id := some "W", image_path := "w1.png", detailed_notes := some "row a" },
       { camera_id := some "W", image_path := "w2.png", detailed_notes := some "row b" }]
      [("W",
        { samples := [{ detailed_notes := some "row a" }, { detailed_notes := some "row b" }],
          name := "W", sample_count := 2, detection_tips := standardTip })]
      "W"
      { samples := [{ detailed_notes := some "row a" }, { detailed_notes := some "row b" }],
        name := "W", sample_count := 2, detection_tips := standardTip }
      rfl rfl).1 (by decide)).1,
   ((missing_counts_zero.1
      [{ camera_id := some "W", image_path := "w1.png", detailed_notes := some "row a" },
       { camera_id := some "W", image_path := "w2.png", detailed_notes := some "row b" }]
      [("W",
        { samples := [{ detailed_notes := some "row a" }, { detailed_notes := some "row b" }],
          name := "W", sample_count := 2, detection_tips := standardTip })]
      "W"
      { samples := [{ detailed_notes := some "row a" }, { detailed_notes := some "row b" }],
        name := "W", sample_count := 2, detection_tips := standardTip }
      rfl rfl).1 (by decide)).2⟩
